import Mathlib

/-!
Shallow embedding of the example key-value RPC server
(`src/example_server/server.cpp`): the request dispatcher
`EchoServiceImpl::Echo`, the shutdown routine `EchoServiceImpl::Destroy_DB`,
and the RocksDB storage calls they make, modelled as pure functions over an
explicit store state.
-/

set_option autoImplicit false

namespace ExampleServer

/-- Modelled from the spec: the operation-code type `OPCODE_T` is declared in
`OPcode.h`, which is not among the sources; the spec (§6) fixes the codes
READ=0, WRITE=1, DELETE=2, MODIFY=3, with any other integer an unknown code. -/
abbrev OPCODE_T := Nat

/-- Modelled from the spec: READ = 0 (spec §6). -/
def OP_READ : OPCODE_T := 0

/-- Modelled from the spec: WRITE = 1 (spec §6). -/
def OP_WRITE : OPCODE_T := 1

/-- Modelled from the spec: DELETE = 2 (spec §6). -/
def OP_DELETE : OPCODE_T := 2

/-- Modelled from the spec: MODIFY = 3 (spec §6). -/
def OP_MODIFY : OPCODE_T := 3

/-- Modelled from the spec: the response status constants set by
`server.cpp` (`STATUS_KOK`, `STATUS_KNOTFOUND`, `STATUS_KERROR`) are declared
in `OPcode.h`, which is not among the sources; the spec (§6) names them
OK, NOT_FOUND, ERROR. -/
inductive STATUS_T where
  | STATUS_KOK
  | STATUS_KNOTFOUND
  | STATUS_KERROR
deriving DecidableEq, Repr

/-- Result statuses of the external RocksDB engine as used by `server.cpp`:
`Ok`, `NotFound` (checked via `IsNotFound()`), and any other failure
(collapsed to `IOError`, spec §4.1 treats the engine as a black box whose
calls either succeed, report NotFound, or fail with an I/O error). -/
inductive RocksStatus where
  | Ok
  | NotFound
  | IOError
deriving DecidableEq, Repr

/-- `rocksdb::Status::ok()`. -/
def RocksStatus.isOk : RocksStatus → Bool
  | .Ok => true
  | _ => false

/-- `rocksdb::Status::IsNotFound()`. -/
def RocksStatus.isNotFound : RocksStatus → Bool
  | .NotFound => true
  | _ => false

/-- Contents of the key-value store: an association list from keys to values
(first binding wins), modelling the black-box ordered key-value engine the
server opens at `_db_path`. -/
abbrev Store := List (String × String)

/-- Look a key up in the store. -/
def storeLookup (db : Store) (k : String) : Option String :=
  match db with
  | [] => none
  | (k0, v0) :: rest => if k0 = k then some v0 else storeLookup rest k

/-- Insert or overwrite a binding in the store. -/
def storeInsert (db : Store) (k v : String) : Store :=
  match db with
  | [] => [(k, v)]
  | (k0, v0) :: rest =>
      if k0 = k then (k, v) :: rest else (k0, v0) :: storeInsert rest k v

/-- `rocksdb::DB::Put` as called at server.cpp:84. The engine is external;
`fault` says whether this particular call fails (spec §4.1: put either
succeeds durably or fails with an I/O error). On failure the store is
unchanged. -/
def dbPut (fault : Bool) (db : Store) (k v : String) : RocksStatus × Store :=
  if fault then (.IOError, db) else (.Ok, storeInsert db k v)

/-- `rocksdb::DB::Get` as called at server.cpp:101. `fault` says whether this
particular call fails with an engine error other than NotFound (spec §4.1:
get returns the value, or NotFound, or fails with an I/O error). The second
component models the `data` out-parameter, initialised to the empty string
and only written on success. -/
def dbGet (fault : Bool) (db : Store) (k : String) : RocksStatus × String :=
  if fault then (.IOError, "")
  else
    match storeLookup db k with
    | some v => (.Ok, v)
    | none => (.NotFound, "")

/-- The fields of `example::EchoRequest` read by the handler: `op()`,
`key()`, `value()`. -/
structure EchoRequest where
  op : OPCODE_T
  key : String
  value : String
deriving DecidableEq, Repr

/-- The fields of `example::EchoResponse` written by the handler. Both start
unset (`none`) and are only filled by `set_status` / `set_value`. -/
structure EchoResponse where
  status : Option STATUS_T
  value : Option String
deriving DecidableEq, Repr

/-- What the opcode dispatch (server.cpp:79-118) produces: the store after
the storage call, the response fields, and the lines logged. -/
structure DispatchResult where
  db : Store
  response : EchoResponse
  logs : List String
deriving DecidableEq, Repr

/-- The opcode dispatch of `EchoServiceImpl::Echo` (server.cpp:79-118):
WRITE calls `Put` and maps its status; READ calls `Get` and maps NotFound,
other failure, and success; the DELETE and MODIFY branches are empty
statements; any other opcode only logs `Unsupported OPcode`. `fault` is the
fault flag of the single storage call the branch makes, if any. -/
def EchoDispatch (fault : Bool) (db : Store) (request : EchoRequest) :
    DispatchResult :=
  let opcode := request.op
  if opcode = OP_WRITE then
    let key := request.key
    let data := request.value
    let r := dbPut fault db key data
    if !r.1.isOk then
      { db := r.2
        response := { status := some .STATUS_KERROR, value := none }
        logs := [] }
    else
      { db := r.2
        response := { status := some .STATUS_KOK, value := none }
        logs := [] }
  else if opcode = OP_READ then
    let key := request.key
    let r := dbGet fault db key
    if r.1.isNotFound then
      { db := db
        response := { status := some .STATUS_KNOTFOUND, value := none }
        logs := ["Key not found"] }
    else if !r.1.isOk then
      { db := db
        response := { status := some .STATUS_KERROR, value := none }
        logs := ["Error"] }
    else
      { db := db
        response := { status := some .STATUS_KOK, value := some r.2 }
        logs := [] }
  else if opcode = OP_DELETE then
    { db := db, response := { status := none, value := none }, logs := [] }
  else if opcode = OP_MODIFY then
    { db := db, response := { status := none, value := none }, logs := [] }
  else
    { db := db
      response := { status := none, value := none }
      logs := ["Unsupported OPcode " ++ toString opcode] }

/-- The full outcome of one `Echo` call: dispatch result plus the response
attachment (the controller's `response_attachment()`, initially empty). -/
structure EchoOutcome where
  db : Store
  response : EchoResponse
  respAttach : String
  logs : List String
deriving DecidableEq, Repr

/-- `EchoServiceImpl::Echo` (server.cpp:65-127): run the opcode dispatch,
then, if the `echo_attachment` flag is set, append the request attachment to
the (empty) response attachment (server.cpp:122-126); no dispatch branch
touches the attachment. -/
def Echo (echo_attach fault : Bool) (db : Store) (request : EchoRequest)
    (reqAttach : String) : EchoOutcome :=
  let r := EchoDispatch fault db request
  { db := r.db
    response := r.response
    respAttach := if echo_attach then "" ++ reqAttach else ""
    logs := r.logs }

/-- What `EchoServiceImpl::Destroy_DB` leaves behind: how many times the
engine `Close` ran, the on-disk contents at `_db_path` afterwards (`none`
when the path was removed), and what was printed. -/
structure ShutdownOutcome where
  closeCalls : Nat
  onDisk : Option Store
  printed : List String
deriving DecidableEq, Repr

/-- `EchoServiceImpl::Destroy_DB` (server.cpp:55-63): print, `Close` the db
once, then call `std::remove(_db_path)`; `removeOk` models whether that OS
call returns 0. On success the on-disk store is gone; on failure a message
is printed and the data stays. `main` (server.cpp:173) calls this exactly
once at shutdown. -/
def Destroy_DB (removeOk : Bool) (dbPath : String) (db : Store) :
    ShutdownOutcome :=
  { closeCalls := 1
    onDisk := if removeOk then none else some db
    printed :=
      ["terminating. removing " ++ dbPath] ++
        (if removeOk then [] else ["failed to remove " ++ dbPath]) }

/-! ## Store lemmas -/

/-- Looking up a key right after inserting it yields the inserted value. -/
theorem storeLookup_storeInsert_self (db : Store) (k v : String) :
    storeLookup (storeInsert db k v) k = some v := by
  induction db with
  | nil => simp [storeInsert, storeLookup]
  | cons hd tl ih =>
      obtain ⟨k0, v0⟩ := hd
      by_cases h : k0 = k <;> simp [storeInsert, storeLookup, h, ih]

/-! ## Claim theorems -/

/-- C1: a WRITE request whose storage put succeeds answers OK, and a
subsequent READ of the same key answers OK with the written value. -/
theorem c1_write_then_read (ea : Bool) (db : Store) (k v w att : String)
    (pf : Bool) (hput : ((dbPut pf db k v).1).isOk = true) :
    (Echo ea pf db { op := OP_WRITE, key := k, value := v } att).response.status
        = some .STATUS_KOK ∧
    (Echo ea false
        (Echo ea pf db { op := OP_WRITE, key := k, value := v } att).db
        { op := OP_READ, key := k, value := w } att).response.status
        = some .STATUS_KOK ∧
    (Echo ea false
        (Echo ea pf db { op := OP_WRITE, key := k, value := v } att).db
        { op := OP_READ, key := k, value := w } att).response.value
        = some v := by
  cases pf with
  | true => simp [dbPut, RocksStatus.isOk] at hput
  | false =>
      refine ⟨?_, ?_, ?_⟩ <;>
        simp [Echo, EchoDispatch, dbPut, dbGet, OP_WRITE, OP_READ,
          RocksStatus.isOk, RocksStatus.isNotFound,
          storeLookup_storeInsert_self]

/-- Witness for C1 at concrete inputs. -/
theorem c1_write_then_read_witness :
    ((dbPut false [] "a" "1").1).isOk = true ∧
    ((Echo false false [] { op := OP_WRITE, key := "a", value := "1" } "").response.status
        = some .STATUS_KOK ∧
    (Echo false false
        (Echo false false [] { op := OP_WRITE, key := "a", value := "1" } "").db
        { op := OP_READ, key := "a", value := "" } "").response.status
        = some .STATUS_KOK ∧
    (Echo false false
        (Echo false false [] { op := OP_WRITE, key := "a", value := "1" } "").db
        { op := OP_READ, key := "a", value := "" } "").response.value
        = some "1") :=
  ⟨by decide, c1_write_then_read false [] "a" "1" "" "" false (by decide)⟩

/-- C2: a READ of an absent key answers NOT_FOUND; a READ whose storage get
fails with an engine error other than NotFound answers ERROR; a successful
READ answers OK with the stored value. -/
theorem c2_read_result (ea : Bool) (db : Store) (k w att : String) :
    (storeLookup db k = none →
      (Echo ea false db { op := OP_READ, key := k, value := w } att).response.status
          = some .STATUS_KNOTFOUND) ∧
    ((Echo ea true db { op := OP_READ, key := k, value := w } att).response.status
        = some .STATUS_KERROR) ∧
    (∀ v : String, storeLookup db k = some v →
      (Echo ea false db { op := OP_READ, key := k, value := w } att).response.status
          = some .STATUS_KOK ∧
      (Echo ea false db { op := OP_READ, key := k, value := w } att).response.value
          = some v) := by
  refine ⟨fun h => ?_, ?_, fun v h => ⟨?_, ?_⟩⟩ <;>
    simp [Echo, EchoDispatch, dbGet, OP_WRITE, OP_READ,
      RocksStatus.isOk, RocksStatus.isNotFound, *]

/-- Witness for C2 at concrete inputs. -/
theorem c2_read_result_witness :
    (Echo false false [("a", "1")] { op := OP_READ, key := "b", value := "" } "").response.status
        = some .STATUS_KNOTFOUND ∧
    (Echo false true [("a", "1")] { op := OP_READ, key := "a", value := "" } "").response.status
        = some .STATUS_KERROR ∧
    ((Echo false false [("a", "1")] { op := OP_READ, key := "a", value := "" } "").response.status
        = some .STATUS_KOK ∧
    (Echo false false [("a", "1")] { op := OP_READ, key := "a", value := "" } "").response.value
        = some "1") :=
  ⟨(c2_read_result false [("a", "1")] "b" "" "").1 (by decide),
   (c2_read_result false [("a", "1")] "a" "" "").2.1,
   (c2_read_result false [("a", "1")] "a" "" "").2.2 "1" (by decide)⟩

/-- C3 (code bug): the DELETE branch of the dispatcher is an empty
statement, so a DELETE request on a present key leaves the response status
unset (not OK) and does not remove the key from the store. -/
theorem c3_delete_is_noop :
    (Echo false false [("a", "1")] { op := OP_DELETE, key := "a", value := "" } "").response.status
        = none ∧
    (Echo false false [("a", "1")] { op := OP_DELETE, key := "a", value := "" } "").db
        = [("a", "1")] := by
  decide

/-- C4 (code bug): the MODIFY branch of the dispatcher is an empty
statement, so a MODIFY request on an absent key leaves the response status
unset (not NOT_FOUND); the store is indeed unchanged and the key not
created. -/
theorem c4_modify_absent_is_noop :
    (Echo false false [] { op := OP_MODIFY, key := "a", value := "2" } "").response.status
        = none ∧
    (Echo false false [] { op := OP_MODIFY, key := "a", value := "2" } "").db
        = [] := by
  decide

/-- C5 (code bug): a MODIFY request on an existing key leaves the old value
in place and sets no status, whereas a WRITE request updates the value, so a
subsequent READ observes different values after the two operations. -/
theorem c5_modify_differs_from_write :
    (Echo false false [("a", "1")] { op := OP_MODIFY, key := "a", value := "2" } "").response.status
        = none ∧
    (Echo false false
        (Echo false false [("a", "1")] { op := OP_MODIFY, key := "a", value := "2" } "").db
        { op := OP_READ, key := "a", value := "" } "").response.value
        = some "1" ∧
    (Echo false false
        (Echo false false [("a", "1")] { op := OP_WRITE, key := "a", value := "2" } "").db
        { op := OP_READ, key := "a", value := "" } "").response.value
        = some "2" := by
  decide

/-- C6 (code bug): an unknown opcode leaves the store unchanged and logs the
invalid code, but the response status is left unset rather than set to
ERROR. -/
theorem c6_unknown_opcode_no_error_status :
    (Echo false false [("a", "1")] { op := 99, key := "", value := "" } "").response.status
        = none ∧
    (Echo false false [("a", "1")] { op := 99, key := "", value := "" } "").db
        = [("a", "1")] ∧
    (Echo false false [("a", "1")] { op := 99, key := "", value := "" } "").logs
        = ["Unsupported OPcode 99"] := by
  decide

/-- C7 counterexample: when the `std::remove` call at shutdown succeeds, the
record written before shutdown does not persist on disk — the claim that
shutdown only closes the store and erases nothing fails. -/
theorem c7_shutdown_counterexample :
    (Echo false false [] { op := OP_WRITE, key := "a", value := "1" } "").db
        = [("a", "1")] ∧
    (Destroy_DB true "/tmp/experiment_rocksdb"
        (Echo false false [] { op := OP_WRITE, key := "a", value := "1" } "").db).onDisk
        = none := by
  decide

/-- C7 (amended): at shutdown the store is closed exactly once, but the
process then attempts to remove the on-disk store path; records written and
never deleted persist only when that removal fails, and are erased when it
succeeds. -/
theorem c7_shutdown_close_and_remove (rs ea pf : Bool) (p k v att : String)
    (db : Store) (hput : ((dbPut pf db k v).1).isOk = true) :
    (Destroy_DB rs p
        (Echo ea pf db { op := OP_WRITE, key := k, value := v } att).db).closeCalls = 1 ∧
    (rs = false →
      (Destroy_DB rs p
          (Echo ea pf db { op := OP_WRITE, key := k, value := v } att).db).onDisk
        = some (Echo ea pf db { op := OP_WRITE, key := k, value := v } att).db ∧
      storeLookup
          (Echo ea pf db { op := OP_WRITE, key := k, value := v } att).db k
        = some v) ∧
    (rs = true →
      (Destroy_DB rs p
          (Echo ea pf db { op := OP_WRITE, key := k, value := v } att).db).onDisk
        = none) := by
  cases pf with
  | true => simp [dbPut, RocksStatus.isOk] at hput
  | false =>
      refine ⟨rfl, fun h => ⟨?_, ?_⟩, fun h => ?_⟩ <;>
        simp [Destroy_DB, Echo, EchoDispatch, dbPut, OP_WRITE,
          RocksStatus.isOk, storeLookup_storeInsert_self, h]

/-- Witness for the amended C7 at concrete inputs. -/
theorem c7_shutdown_close_and_remove_witness :
    ((dbPut false [] "a" "1").1).isOk = true ∧
    ((Destroy_DB false "/tmp/experiment_rocksdb"
        (Echo false false [] { op := OP_WRITE, key := "a", value := "1" } "").db).closeCalls = 1 ∧
    (false = false →
      (Destroy_DB false "/tmp/experiment_rocksdb"
          (Echo false false [] { op := OP_WRITE, key := "a", value := "1" } "").db).onDisk
        = some (Echo false false [] { op := OP_WRITE, key := "a", value := "1" } "").db ∧
      storeLookup
          (Echo false false [] { op := OP_WRITE, key := "a", value := "1" } "").db "a"
        = some "1") ∧
    (false = true →
      (Destroy_DB false "/tmp/experiment_rocksdb"
          (Echo false false [] { op := OP_WRITE, key := "a", value := "1" } "").db).onDisk
        = none)) :=
  ⟨by decide,
   c7_shutdown_close_and_remove false false false "/tmp/experiment_rocksdb"
     "a" "1" "" [] (by decide)⟩

/-- C8: with the echo-attachment flag set the request attachment is echoed
back verbatim whatever the opcode; with it unset the response attachment
stays empty. -/
theorem c8_attachment_echo (fault : Bool) (db : Store) (req : EchoRequest)
    (att : String) :
    (Echo true fault db req att).respAttach = att ∧
    (Echo false fault db req att).respAttach = "" := by
  constructor <;> simp [Echo]

/-- C9: dispatching a READ request never changes the store, whether the
storage get succeeds, reports NotFound, or fails. -/
theorem c9_read_preserves_store (ea fault : Bool) (db : Store)
    (k w att : String) :
    (Echo ea fault db { op := OP_READ, key := k, value := w } att).db = db := by
  cases fault with
  | true =>
      simp [Echo, EchoDispatch, dbGet, OP_WRITE, OP_READ,
        RocksStatus.isOk, RocksStatus.isNotFound]
  | false =>
      cases h : storeLookup db k <;>
        simp [Echo, EchoDispatch, dbGet, OP_WRITE, OP_READ,
          RocksStatus.isOk, RocksStatus.isNotFound, h]

/-- C10: the response carries a value only for a READ request that answered
OK; every other request, and every READ that did not succeed, leaves the
value field unset. -/
theorem c10_value_only_on_read_ok (ea fault : Bool) (db : Store)
    (req : EchoRequest) (att : String)
    (hv : (Echo ea fault db req att).response.value ≠ none) :
    req.op = OP_READ ∧
    (Echo ea fault db req att).response.status = some .STATUS_KOK := by
  simp only [Echo, EchoDispatch] at hv ⊢
  split_ifs at hv ⊢ with h1 h2 h3 h4 h5 h6 <;>
    simp_all

/-- Witness for C10 at concrete inputs. -/
theorem c10_value_only_on_read_ok_witness :
    ({ op := OP_READ, key := "a", value := "" } : EchoRequest).op = OP_READ ∧
    (Echo false false [("a", "1")] { op := OP_READ, key := "a", value := "" } "").response.status
        = some .STATUS_KOK :=
  c10_value_only_on_read_ok false false [("a", "1")]
    { op := OP_READ, key := "a", value := "" } "" (by decide)

end ExampleServer
